import Mathlib

set_option maxHeartbeats 1000000

/-!
Shallow embedding of the dynamo-query data-access layer.

The repository contains two backend implementations of one design:
  * a SQL-like document backend (Cosmos DB service): `constructFieldSelection`,
    `createFilter`, `buildWhereClause`, and the `BaseModel` CRUD methods that
    inline literals into a SQL text;
  * a key-value backend (DynamoDB service): `BaseModel.findMany` builds a
    FilterExpression with `#field` name placeholders and `:valN` value
    placeholders, `create`/`update`/`delete` operate on partition/sort keys.

JavaScript runtime values are modelled by `JsVal`; JavaScript objects are
modelled as association lists in insertion order, where a later entry for the
same key overrides an earlier one (JS spread/literal semantics), read through
`getField`.  Thrown exceptions are modelled with `Except String`.
-/

/-- A JavaScript value as used by the query layer: strings, numbers
(restricted to integers, which covers every literal the claims mention),
booleans and arrays. -/
inductive JsVal where
  | vStr (s : String)
  | vBool (b : Bool)
  | vNum (n : Int)
  | vArr (elems : List JsVal)

/-- `isBoolean` from src/src/utils/index.ts, on `JsVal`. -/
def isBooleanV : JsVal → Bool
  | .vBool _ => true
  | _ => false

/-- `isNumber` from src/src/utils/index.ts, on `JsVal`. -/
def isNumberV : JsVal → Bool
  | .vNum _ => true
  | _ => false

mutual

/-- JavaScript template-literal interpolation of a value into a string. -/
def jsToString : JsVal → String
  | .vStr s => s
  | .vBool b => if b then "true" else "false"
  | .vNum n => toString n
  | .vArr xs => String.intercalate "," (jsToStringList xs)

/-- Interpolation of each element of an array. -/
def jsToStringList : List JsVal → List String
  | [] => []
  | x :: xs => jsToString x :: jsToStringList xs

end

/-- A JavaScript object in insertion order. -/
abbrev Record := List (String × JsVal)

/-- Property access on a JS object literal built by spreads: the value of the
last entry carrying the key (later spreads override earlier ones). -/
def getField : Record → String → Option JsVal
  | [], _ => none
  | kv :: rest, key =>
    match getField rest key with
    | some w => some w
    | none => if kv.1 = key then some kv.2 else none

/-- JavaScript truthiness of a value. -/
def jsTruthy : JsVal → Bool
  | .vStr s => s != ""
  | .vNum n => n != 0
  | .vBool b => b
  | .vArr _ => true

/-- `IdSchema` (both services): a non-empty string whose characters are all
non-whitespace (`z.string().min(1)` refined by the regex matching one or more
non-space characters). -/
def validId (s : String) : Bool :=
  !s.isEmpty && s.data.all (fun c => !c.isWhitespace)

/-- `constructFieldSelection` (Cosmos service): the projection planner.
`select` is `none` for a missing argument, otherwise the object entries in
insertion order. -/
def constructFieldSelection (args : Option (List (String × Bool))) : String :=
  match args with
  | none => "*"
  | some l =>
    if l.isEmpty then "*"
    else
      let fieldsSelected := (l.filter (fun kv => kv.2)).map (fun kv => kv.1)
      if fieldsSelected.isEmpty then "*"
      else String.intercalate ", " (fieldsSelected.map (fun key => "c." ++ key))

/-- The element rendering shared by the `in` and `notIn` branches of
`createFilter`: booleans and numbers are interpolated bare, everything else is
wrapped in single quotes. -/
def renderListElem (v : JsVal) : String :=
  if isBooleanV v || isNumberV v then jsToString v
  else "\x27" ++ jsToString v ++ "\x27"

/-- `createFilter` (Cosmos service): compiles one `(field, operator, operand,
mode)` quadruple to one SQL boolean fragment.  An unrecognized operator key
(including `mode`) falls through every branch and yields the empty string.
`in`/`notIn` with a non-array operand throws a `TypeError` at runtime
(calling `.map` on a non-array), modelled as an error. -/
def createFilter (field : String) (filterKey : String) (mode : String) (value : JsVal) :
    Except String String :=
  if filterKey = "contains" then
    if mode = "INSENSITIVE" then
      .ok ("CONTAINS(LOWER(c." ++ field ++ "), LOWER(\x27" ++ jsToString value ++ "\x27))")
    else
      .ok ("CONTAINS(c." ++ field ++ ", \x27" ++ jsToString value ++ "\x27)")
  else if filterKey = "startsWith" then
    if mode = "INSENSITIVE" then
      .ok ("STARTSWITH(LOWER(c." ++ field ++ "), LOWER(\x27" ++ jsToString value ++ "\x27))")
    else
      .ok ("STARTSWITH(c." ++ field ++ ", \x27" ++ jsToString value ++ "\x27)")
  else if filterKey = "endsWith" then
    if mode = "INSENSITIVE" then
      .ok ("LOWER(c." ++ field ++ ") LIKE \x27%LOWER(\x27" ++ jsToString value ++ "\x27)\x27")
    else
      .ok ("c." ++ field ++ " LIKE \x27%" ++ jsToString value ++ "\x27")
  else if filterKey = "equals" then
    if isBooleanV value || isNumberV value then .ok ("c." ++ field ++ " = " ++ jsToString value)
    else .ok ("c." ++ field ++ " = \x27" ++ jsToString value ++ "\x27")
  else if filterKey = "not" then
    if isBooleanV value || isNumberV value then .ok ("c." ++ field ++ " != " ++ jsToString value)
    else .ok ("c." ++ field ++ " != \x27" ++ jsToString value ++ "\x27")
  else if filterKey = "gt" then
    if isBooleanV value || isNumberV value then .ok ("c." ++ field ++ " > " ++ jsToString value)
    else .ok ("c." ++ field ++ " > \x27" ++ jsToString value ++ "\x27")
  else if filterKey = "gte" then
    if isBooleanV value || isNumberV value then .ok ("c." ++ field ++ " >= " ++ jsToString value)
    else .ok ("c." ++ field ++ " >= \x27" ++ jsToString value ++ "\x27")
  else if filterKey = "lt" then
    if isBooleanV value || isNumberV value then .ok ("c." ++ field ++ " < " ++ jsToString value)
    else .ok ("c." ++ field ++ " < \x27" ++ jsToString value ++ "\x27")
  else if filterKey = "lte" then
    if isBooleanV value || isNumberV value then .ok ("c." ++ field ++ " <= " ++ jsToString value)
    else .ok ("c." ++ field ++ " <= \x27" ++ jsToString value ++ "\x27")
  else if filterKey = "in" then
    match value with
    | .vArr xs =>
      .ok ("c." ++ field ++ " IN (" ++ String.intercalate ", " (xs.map renderListElem) ++ ")")
    | _ => .error "TypeError: value.map is not a function"
  else if filterKey = "notIn" then
    match value with
    | .vArr xs =>
      .ok ("c." ++ field ++ " NOT IN (" ++ String.intercalate ", " (xs.map renderListElem) ++ ")")
    | _ => .error "TypeError: value.map is not a function"
  else .ok ""

/-- The `mode` of a filter object in `buildWhereClause`:
`filters.mode ? filters.mode : 'SENSITIVE'` (JS truthiness). -/
def modeOf (filters : List (String × JsVal)) : String :=
  match getField filters "mode" with
  | some v => if jsTruthy v then jsToString v else "SENSITIVE"
  | none => "SENSITIVE"

/-- A JavaScript `Array.prototype.map` whose callback may throw: elements are
visited left to right and the first exception aborts the whole map. -/
def mapExcept (f : A → Except String B) : List A → Except String (List B)
  | [] => .ok []
  | x :: xs =>
    match f x with
    | .error e => .error e
    | .ok y =>
      match mapExcept f xs with
      | .error e => .error e
      | .ok ys => .ok (y :: ys)

/-- `buildWhereClause` (Cosmos service): iterates the `where` object fields in
insertion order and, for each field, every entry of its filter object;
compiles each via `createFilter`, drops empty fragments, and joins the rest
with `AND` after a `WHERE` keyword.  `none` models a missing argument. -/
def buildWhereClause (args : Option (List (String × List (String × JsVal)))) :
    Except String String :=
  match args with
  | none => .ok ""
  | some l =>
    if l.isEmpty then .ok ""
    else
      match mapExcept (fun fieldFilters =>
          mapExcept (fun kv =>
            createFilter fieldFilters.1 kv.1 (modeOf fieldFilters.2) kv.2) fieldFilters.2) l with
      | .error e => .error e
      | .ok nested =>
        let conditions := nested.flatten.filter (fun s => !s.isEmpty)
        if conditions.isEmpty then .ok ""
        else .ok ("WHERE " ++ String.intercalate " AND " conditions)

/-- A DynamoDB attribute value container as produced by `prepareValue` in the
DynamoDB service: a typed string/number/boolean wrapper. -/
inductive DynAttr where
  | S (s : String)
  | N (s : String)
  | BOOL (b : Bool)
  deriving DecidableEq, Repr

/-- `prepareValue` (DynamoDB service `findMany`): wraps a runtime value in a
typed attribute container; any other value (arrays in particular) throws
`Unsupported value type`. -/
def prepareValue : JsVal → Except String DynAttr
  | .vStr s => .ok (.S s)
  | .vNum n => .ok (.N (toString n))
  | .vBool b => .ok (.BOOL b)
  | .vArr _ => .error "Unsupported value type: object"

/-- `operatorSymbols` (DynamoDB service `findMany`): comparison operators with
a native symbol. -/
def operatorSymbols : List (String × String) :=
  [("equals", "="), ("not", "<>"), ("gt", ">"), ("gte", ">="), ("lt", "<"), ("lte", "<=")]

/-- One iteration of the `Object.entries(where).forEach` loop in the DynamoDB
service `findMany`: an empty condition object throws; otherwise ONLY THE FIRST
key of the condition object is read (`keys[0]`), its value is wrapped by
`prepareValue`, and the operator is dispatched; an unrecognized first key
(including `mode`) throws `Unsupported operator`.  Returns the filter
fragment, the attribute-name binding and the attribute-value binding. -/
def dynamoCompileField (counter : Nat) (field : String) (condition : List (String × JsVal)) :
    Except String (String × (String × String) × (String × DynAttr)) :=
  match condition with
  | [] => .error ("Invalid condition for field \"" ++ field ++ "\". Expected a non-empty object.")
  | (operator, value) :: _ =>
    let fieldPlaceholder := "#" ++ field
    let valuePlaceholder := ":val" ++ toString counter
    match prepareValue value with
    | .error e => .error e
    | .ok av =>
      match operatorSymbols.lookup operator with
      | some sym =>
        .ok (fieldPlaceholder ++ " " ++ sym ++ " " ++ valuePlaceholder,
          (fieldPlaceholder, field), (valuePlaceholder, av))
      | none =>
        if operator = "contains" then
          .ok ("contains(" ++ fieldPlaceholder ++ ", " ++ valuePlaceholder ++ ")",
            (fieldPlaceholder, field), (valuePlaceholder, av))
        else if operator = "startsWith" then
          .ok ("begins_with(" ++ fieldPlaceholder ++ ", " ++ valuePlaceholder ++ ")",
            (fieldPlaceholder, field), (valuePlaceholder, av))
        else if operator = "endsWith" then
          .ok ("contains(" ++ fieldPlaceholder ++ ", " ++ valuePlaceholder ++ ")",
            (fieldPlaceholder, field), (valuePlaceholder, av))
        else .error ("Unsupported operator: " ++ operator)

/-- The whole `forEach` loop of the DynamoDB service `findMany`: one fragment,
one name binding and one value binding per `where` field, with the `:valN`
counter incremented once per field. -/
def dynamoBuildFilterAux :
    Nat → List (String × List (String × JsVal)) →
    Except String (List String × List (String × String) × List (String × DynAttr))
  | _, [] => .ok ([], [], [])
  | counter, (field, condition) :: rest =>
    match dynamoCompileField counter field condition with
    | .error e => .error e
    | .ok (frag, nm, vl) =>
      match dynamoBuildFilterAux (counter + 1) rest with
      | .error e => .error e
      | .ok (fs, ns, vs) => .ok (frag :: fs, nm :: ns, vl :: vs)

/-- The DynamoDB clause assembler, starting from placeholder counter 0. -/
def dynamoBuildFilter (w : List (String × List (String × JsVal))) :
    Except String (List String × List (String × String) × List (String × DynAttr)) :=
  dynamoBuildFilterAux 0 w

/-- The `FilterExpression` string: fragments joined with `AND`. -/
def dynamoFilterExpression (w : List (String × List (String × JsVal))) :
    Except String String :=
  match dynamoBuildFilter w with
  | .error e => .error e
  | .ok (fs, _, _) => .ok (String.intercalate " AND " fs)

/-- `take` validation in the Cosmos service `findMany`: performed whenever
`take` is not null/undefined, rejecting any value below 1 (trailing space in
the message is in the source). -/
def cosmosValidateTake : Option Int → Except String Unit
  | none => .ok ()
  | some t =>
    if t < 1 then
      .error ("Please make sure \"take\" is a positive integer. You provided " ++ toString t ++ " ")
    else .ok ()

/-- `maxItemCount` passed to the Cosmos query: `take ?? 100`. -/
def cosmosMaxItemCount (take : Option Int) : Int :=
  take.getD 100

/-- `take` validation in the DynamoDB service `findMany`: guarded by
`if (take && ...)`, so a FALSY `take` (0 in particular) skips validation. -/
def dynamoValidateTake : Option Int → Except String Unit
  | none => .ok ()
  | some t =>
    if t ≠ 0 ∧ t < 1 then
      .error ("Please make sure \"take\" is a positive integer. You provided " ++ toString t)
    else .ok ()

/-- `Limit` passed to the DynamoDB scan: `take ?? 100` (note `0 ?? 100 = 0`). -/
def dynamoLimit (take : Option Int) : Int :=
  take.getD 100

/-- The field list denoted by `constructFieldSelection`: `none` is the `*`
wildcard, otherwise the listed fields in order.  Mirrors the three branches of
the source function (missing/empty object, no `true` entry, explicit list). -/
def selectedFields (select : Option (List (String × Bool))) : Option (List String) :=
  match select with
  | none => none
  | some l =>
    if l.isEmpty then none
    else
      let fieldsSelected := (l.filter (fun kv => kv.2)).map (fun kv => kv.1)
      if fieldsSelected.isEmpty then none
      else some fieldsSelected

/-- The document store executing the projection of a compiled
`SELECT` clause on one stored document: the wildcard returns the whole
document, an explicit field list returns exactly those fields that exist on
the document, in list order.  This models the external store contract for the
queries built by `buildQueryFindOne`/`buildQueryFindMany`. -/
def projectRecord (select : Option (List (String × Bool))) (r : Record) : Record :=
  match selectedFields select with
  | none => r
  | some fs => fs.filterMap (fun f => (getField r f).map (fun v => (f, v)))

/-- The `c.id = 'id'` predicate of `buildQueryFindOne`, evaluated by the store
on one document. -/
def recordHasId (r : Record) (id : String) : Bool :=
  match getField r "id" with
  | some (.vStr s) => s == id
  | _ => false

/-- `BaseModel.findOne` (Cosmos service) over a store modelled as a document
list: validate the id, run the single-row query keyed by id, throw when
nothing matches, and return the first match projected by `select`. -/
def cosmosFindOneModel (id : String) (select : Option (List (String × Bool)))
    (store : List Record) : Except String Record :=
  if !validId id then
    .error "ID should not contain space characters, nor can it be an empty string."
  else
    match store.find? (fun r => recordHasId r id) with
    | none => .error "We cannot find anything using the ID you provided"
    | some r => .ok (projectRecord select r)

/-- `BaseModel.update` (Cosmos service): validate the id and the payload, then
check existence via `findOne` WITH `select: { id: true }` (so the fetched
document is only the id projection), spread the payload over that projection
and `replace` the whole stored document with the result.  Returns the new
document and the updated store. -/
def cosmosUpdateModel (id : String) (data : Record) (store : List Record) :
    Except String (Record × List Record) :=
  if !validId id then
    .error "ID should not contain space characters, nor can it be an empty string."
  else if data.isEmpty then
    .error "Please provide an non-empty object as payload. You provided \"\x7b\x7d\""
  else
    match cosmosFindOneModel id (some [("id", true)]) store with
    | .error _ =>
      .error "Failed to update item in db. The item you\x27re trying to update cannot be found."
    | .ok existingItem =>
      let replaced := existingItem ++ data
      .ok (replaced, store.map (fun r => if recordHasId r id then replaced else r))

/-- `BaseModel.create` (Cosmos service): validate the payload and send it to
the store UNCHANGED — despite the `AutoFields` configuration documented on the
model (auto `id`, auto `createdAt`/`updatedAt`), this method reads neither
`this.fields` nor a clock nor a UUID source; the returned resource is the
document body that was sent (the store adds only its own system fields, and it
never adds a field named `createdAt` or `updatedAt`). -/
def cosmosCreateModel (data : Record) : Except String Record :=
  if data.isEmpty then
    .error "Please provide an non-empty object as payload. You provided \"\x7b\x7d\""
  else .ok data

/-- `data.id || crypto.randomUUID()` (DynamoDB service `create`): the payload
id when truthy, otherwise the next UUID `u` from the generator. -/
def jsIdOrUuid (data : Record) (u : String) : JsVal :=
  match getField data "id" with
  | some v => if jsTruthy v then v else .vStr u
  | none => .vStr u

/-- The item object built by `BaseModel.create` (DynamoDB service):
partition-key entry, optional sort-key entry, the payload spread, and — when
timestamps are enabled — `createdAt`/`updatedAt` from TWO separate
`new Date().toISOString()` calls (`now` then `nowAgain`).  When the payload id
is falsy, the partition-key entry uses the FIRST generated UUID and the
sort-key entry uses the SECOND (two independent `crypto.randomUUID()` calls),
supplied here as `uuids`. -/
def dynamoCreateItem (pk : String) (sk : Option String) (timestampOn : Bool)
    (data : Record) (uuids : List String) (now nowAgain : String) : Record :=
  ((pk, jsIdOrUuid data (uuids.getD 0 "")) ::
    (match sk with
     | some skName => [(skName, jsIdOrUuid data (uuids.getD 1 ""))]
     | none => [])) ++ data ++
    (if timestampOn then [("createdAt", .vStr now), ("updatedAt", .vStr nowAgain)] else [])

/-- `BaseModel.create` (DynamoDB service): payload validation followed by the
`PutItem` of `dynamoCreateItem`; the built item is returned. -/
def dynamoCreateModel (pk : String) (sk : Option String) (timestampOn : Bool)
    (data : Record) (uuids : List String) (now nowAgain : String) : Except String Record :=
  if data.isEmpty then
    .error "Please provide an non-empty object as payload. You provided \"\x7b\x7d\""
  else .ok (dynamoCreateItem pk sk timestampOn data uuids now nowAgain)

/-- The native DynamoDB pagination token (`LastEvaluatedKey`): a marshalled
attribute map. -/
abbrev NativeToken := List (String × DynAttr)

/-- Whitespace accepted by `JSON.parse` between tokens. -/
def isJsonWs (c : Char) : Bool :=
  c = ' ' || c = '\t' || c = '\n' || c = '\r'

/-- Drop leading JSON whitespace. -/
def skipWs : List Char → List Char
  | [] => []
  | c :: cs => if isJsonWs c then skipWs cs else c :: cs

/-- The characters of a JSON string literal up to its closing quote (escape
sequences are not modelled: `JSON.stringify` never emits them for the
escape-free strings considered here). -/
def takeStr : List Char → Option (List Char × List Char)
  | [] => none
  | c :: cs =>
    if c = '"' then some ([], cs)
    else if c = '\\' then none
    else (takeStr cs).map (fun p => (c :: p.1, p.2))

/-- A JSON string literal. -/
def parseStringLit : List Char → Option (String × List Char)
  | '"' :: rest => (takeStr rest).map (fun p => (String.mk p.1, p.2))
  | _ => none

/-- Require a fixed sequence of characters. -/
def parseExact : List Char → List Char → Option (List Char)
  | [], l => some l
  | p :: ps, c :: cs => if c = p then parseExact ps cs else none
  | _ :: _, [] => none

/-- Require one specific character. -/
def expectChar (c : Char) : List Char → Option (List Char)
  | [] => none
  | x :: xs => if x = c then some xs else none

/-- The value of a one-key attribute object, dispatched on its key. -/
def parseAttrBody (key : String) (l : List Char) : Option (DynAttr × List Char) :=
  if key = "S" then (parseStringLit (skipWs l)).map (fun p => (DynAttr.S p.1, p.2))
  else if key = "N" then (parseStringLit (skipWs l)).map (fun p => (DynAttr.N p.1, p.2))
  else if key = "BOOL" then
    match parseExact "true".data (skipWs l) with
    | some rest => some (DynAttr.BOOL true, rest)
    | none =>
      match parseExact "false".data (skipWs l) with
      | some rest => some (DynAttr.BOOL false, rest)
      | none => none
  else none

/-- A marshalled attribute value object such as `\x7b"S":"abc"\x7d`. -/
def parseAttr (l : List Char) : Option (DynAttr × List Char) :=
  (expectChar '\x7b' (skipWs l)).bind fun l1 =>
  (parseStringLit (skipWs l1)).bind fun kl =>
  (expectChar ':' (skipWs kl.2)).bind fun l3 =>
  (parseAttrBody kl.1 l3).bind fun al =>
  (expectChar '\x7d' (skipWs al.2)).map fun l5 => (al.1, l5)

/-- One or more comma-separated `"key": attribute` entries; the fuel bounds
the number of entries and is instantiated with the input length. -/
def parseEntriesAux : Nat → List Char → Option (NativeToken × List Char)
  | 0, _ => none
  | fuel + 1, l =>
    (parseStringLit (skipWs l)).bind fun kl =>
    (expectChar ':' (skipWs kl.2)).bind fun l2 =>
    (parseAttr l2).bind fun al =>
    match skipWs al.2 with
    | ',' :: l4 =>
      (parseEntriesAux fuel l4).map fun el => ((kl.1, al.1) :: el.1, el.2)
    | l4 => some ([(kl.1, al.1)], l4)

/-- A whole attribute-map object. -/
def parseTokenCore (l : List Char) : Option (NativeToken × List Char) :=
  (expectChar '\x7b' (skipWs l)).bind fun l1 =>
  match expectChar '\x7d' (skipWs l1) with
  | some l2 => some ([], l2)
  | none =>
    (parseEntriesAux ((skipWs l1).length + 1) (skipWs l1)).bind fun el =>
    (expectChar '\x7d' (skipWs el.2)).map fun l4 => (el.1, l4)

/-- `JSON.parse(nextCursor)` restricted to attribute maps, as used for
`ExclusiveStartKey` in the DynamoDB service `findMany`; `none` models the
`SyntaxError` thrown on a malformed cursor, and trailing non-whitespace is
rejected exactly as `JSON.parse` rejects it. -/
def decodeCursor (s : String) : Option NativeToken :=
  match parseTokenCore s.data with
  | none => none
  | some (t, rest) => if (skipWs rest).isEmpty then some t else none

/-- `JSON.stringify` of one marshalled attribute value: no whitespace. -/
def printAttrChars : DynAttr → List Char
  | .S s => '\x7b' :: '"' :: 'S' :: '"' :: ':' :: '"' :: (s.data ++ ['"', '\x7d'])
  | .N s => '\x7b' :: '"' :: 'N' :: '"' :: ':' :: '"' :: (s.data ++ ['"', '\x7d'])
  | .BOOL b =>
    '\x7b' :: '"' :: 'B' :: 'O' :: 'O' :: 'L' :: '"' :: ':' ::
      ((if b then "true".data else "false".data) ++ ['\x7d'])

/-- `JSON.stringify` of one `"key": value` member. -/
def printEntryChars (e : String × DynAttr) : List Char :=
  '"' :: (e.1.data ++ ('"' :: ':' :: printAttrChars e.2))

/-- `JSON.stringify` of the members, comma-separated. -/
def printEntriesChars : NativeToken → List Char
  | [] => []
  | [e] => printEntryChars e
  | e :: es => printEntryChars e ++ ',' :: printEntriesChars es

/-- `JSON.stringify(LastEvaluatedKey)`, the cursor string handed to callers by
the DynamoDB service `findMany`. -/
def encodeToken (t : NativeToken) : String :=
  String.mk ('\x7b' :: (printEntriesChars t ++ ['\x7d']))

/-- The cursor attached to a response: `LastEvaluatedKey ?
JSON.stringify(LastEvaluatedKey) : undefined`. -/
def encodeCursor : Option NativeToken → Option String
  | none => none
  | some t => some (encodeToken t)

/-- A character `JSON.stringify` would emit verbatim inside a string literal
(no escape sequence needed). -/
def charOkForJson (c : Char) : Bool :=
  c ≠ '"' && c ≠ '\\'

/-- A string `JSON.stringify` prints without escape sequences. -/
def strOkForJson (s : String) : Bool :=
  s.data.all charOkForJson

/-- Attribute whose payload string is escape-free. -/
def attrOk : DynAttr → Bool
  | .S s => strOkForJson s
  | .N s => strOkForJson s
  | .BOOL _ => true

/-- Token whose keys and payload strings are escape-free. -/
def tokenOk (t : NativeToken) : Bool :=
  t.all (fun e => strOkForJson e.1 && attrOk e.2)

/-- `pat` is a leading chunk of the character list. -/
def chunkAt : List Char → List Char → Bool
  | _, [] => true
  | [], _ :: _ => false
  | c :: cs, p :: ps => (c == p) && chunkAt cs ps

/-- `pat` occurs somewhere in the character list. -/
def occursIn (pat : List Char) : List Char → Bool
  | [] => pat.isEmpty
  | c :: cs => chunkAt (c :: cs) pat || occursIn pat cs

/-- The first string occurs as a substring of the second (an executable
character-level check used to state that a compiled clause does or does not
mention a given SQL primitive). -/
def mentions (sub s : String) : Bool :=
  occursIn sub.data s.data

/-! ## Helper lemmas -/

/-- Appending anything to a non-empty string yields a non-empty string. -/
theorem isEmpty_false_append (s t : String) (h : s.isEmpty = false) :
    (s ++ t).isEmpty = false := by
  rw [Bool.eq_false_iff] at h ⊢
  intro hc
  apply h
  rw [String.isEmpty_iff] at hc ⊢
  have hd := congrArg String.data hc
  rw [String.data_append] at hd
  simp only [List.append_eq_nil] at hd
  exact String.ext hd.1

/-- `String.intercalate.go` keeps a non-empty accumulator non-empty. -/
theorem intercalate_go_isEmpty_false (sep : String) (xs : List String) (acc : String)
    (h : acc.isEmpty = false) : (String.intercalate.go acc sep xs).isEmpty = false := by
  induction xs generalizing acc with
  | nil => exact h
  | cons a as ih =>
    exact ih (acc ++ sep ++ a) (isEmpty_false_append _ _ (isEmpty_false_append _ _ h))

/-- Joining a list headed by a non-empty string yields a non-empty string. -/
theorem intercalate_isEmpty_false (sep x : String) (xs : List String)
    (h : x.isEmpty = false) : (String.intercalate sep (x :: xs)).isEmpty = false :=
  intercalate_go_isEmpty_false sep xs x h

/-- `getField` over a spread: entries of the later object win. -/
theorem getField_append (a b : Record) (k : String) :
    getField (a ++ b) k =
      match getField b k with
      | some w => some w
      | none => getField a k := by
  induction a with
  | nil =>
    cases hb : getField b k <;> simp [getField, hb]
  | cons kv a ih =>
    rw [List.cons_append]
    show (match getField (a ++ b) k with
        | some w => some w
        | none => if kv.1 = k then some kv.2 else none) = _
    rw [ih]
    cases hb : getField b k
    · simp [getField]
    · simp [getField]

/-- Successful step of `mapExcept`. -/
theorem mapExcept_cons_ok (f : A → Except String B) (x : A) (xs : List A) (y : B) (ys : List B)
    (hx : f x = .ok y) (hxs : mapExcept f xs = .ok ys) :
    mapExcept f (x :: xs) = .ok (y :: ys) := by
  show (match f x with
    | Except.error e => (Except.error e : Except String (List B))
    | Except.ok y =>
      match mapExcept f xs with
      | Except.error e => Except.error e
      | Except.ok ys => Except.ok (y :: ys)) = _
  rw [hx, hxs]

/-- Evaluation rule for `buildWhereClause` once the per-field compilation
succeeded. -/
theorem buildWhereClause_ok (l : List (String × List (String × JsVal))) (nested : List (List String))
    (hl : l.isEmpty = false)
    (hm : mapExcept (fun fieldFilters => mapExcept (fun kv =>
        createFilter fieldFilters.1 kv.1 (modeOf fieldFilters.2) kv.2) fieldFilters.2) l =
      .ok nested) :
    buildWhereClause (some l) =
      (if (nested.flatten.filter (fun s => !s.isEmpty)).isEmpty then .ok ""
       else .ok ("WHERE " ++ String.intercalate " AND "
         (nested.flatten.filter (fun s => !s.isEmpty)))) := by
  have step : buildWhereClause (some l) =
      (if l.isEmpty then (.ok "" : Except String String)
       else
        match mapExcept (fun fieldFilters => mapExcept (fun kv =>
            createFilter fieldFilters.1 kv.1 (modeOf fieldFilters.2) kv.2) fieldFilters.2) l with
        | .error e => .error e
        | .ok nested =>
          let conditions := nested.flatten.filter (fun s => !s.isEmpty)
          if conditions.isEmpty then .ok ""
          else .ok ("WHERE " ++ String.intercalate " AND " conditions)) := rfl
  rw [step, hl, hm]
  simp

/-- Wildcard branch of the projection planner: when no field is `true` the
plan is `*`. -/
theorem constructFieldSelection_wildcard (l : List (String × Bool))
    (h : (l.filter (fun kv => kv.2)).isEmpty = true) :
    constructFieldSelection (some l) = "*" := by
  by_cases hl : l.isEmpty
  · simp [constructFieldSelection, hl]
  · have hm : ((l.filter (fun kv => kv.2)).map (fun kv => kv.1)).isEmpty = true := by
      rw [List.isEmpty_iff] at h ⊢
      simp [h]
    simp [constructFieldSelection, hl, hm]

/-- Field-list branch of the projection planner: when some field is `true`
the plan renders exactly the `true` fields in insertion order. -/
theorem constructFieldSelection_fields (l : List (String × Bool))
    (h : (l.filter (fun kv => kv.2)).isEmpty = false) :
    constructFieldSelection (some l) =
      String.intercalate ", "
        (((l.filter (fun kv => kv.2)).map (fun kv => kv.1)).map (fun key => "c." ++ key)) := by
  have hl : l.isEmpty = false := by
    cases l with
    | nil => simp [List.filter] at h
    | cons x xs => rfl
  have hm : ((l.filter (fun kv => kv.2)).map (fun kv => kv.1)).isEmpty = false := by
    cases hf : l.filter (fun kv => kv.2) with
    | nil => rw [hf] at h; exact absurd h (by simp)
    | cons x xs => rfl
  simp [constructFieldSelection, hl, hm]

/-- C9: the projection planner maps an absent, empty, or all-false `select` to
the wildcard plan `*` — in particular both `constructFieldSelection none` and
`constructFieldSelection (some [])` are `*` — and otherwise returns exactly
the fields whose value is `true`, rendered in the original insertion order;
it never returns an empty projection. -/
theorem projection_planner_wildcard_and_subset :
    constructFieldSelection none = "*" ∧
    constructFieldSelection (some []) = "*" ∧
    (∀ l : List (String × Bool), (l.filter (fun kv => kv.2)).isEmpty = true →
      constructFieldSelection (some l) = "*") ∧
    (∀ l : List (String × Bool), (l.filter (fun kv => kv.2)).isEmpty = false →
      constructFieldSelection (some l) =
        String.intercalate ", "
          (((l.filter (fun kv => kv.2)).map (fun kv => kv.1)).map (fun key => "c." ++ key))) ∧
    (∀ args, constructFieldSelection args ≠ "") := by
  refine ⟨rfl, rfl, constructFieldSelection_wildcard, constructFieldSelection_fields, ?_⟩
  intro args
  match args with
  | none => decide
  | some l =>
    by_cases hf : (l.filter (fun kv => kv.2)).isEmpty = true
    · rw [constructFieldSelection_wildcard l hf]; decide
    · rw [Bool.not_eq_true] at hf
      rw [constructFieldSelection_fields l hf]
      cases hc : (l.filter (fun kv => kv.2)).map (fun kv => kv.1) with
      | nil =>
        have hnil : l.filter (fun kv => kv.2) = [] := by
          cases hg : l.filter (fun kv => kv.2) with
          | nil => rfl
          | cons y ys => rw [hg] at hc; simp at hc
        rw [hnil] at hf
        exact absurd hf (by decide)
      | cons x xs =>
        intro hcontra
        rw [List.map_cons] at hcontra
        have hne := intercalate_isEmpty_false ", " ("c." ++ x)
          (xs.map (fun key => "c." ++ key)) (isEmpty_false_append "c." x rfl)
        rw [hcontra] at hne
        exact absurd hne (by decide)

/-- C9 witness: concrete instances of the planner branches. -/
theorem projection_planner_wildcard_and_subset_witness :
    constructFieldSelection (some [("firstName", true), ("lastName", true), ("age", false)]) =
      "c.firstName, c.lastName" ∧
    constructFieldSelection (some [("firstName", false), ("lastName", false)]) = "*" := by
  constructor
  · have h := projection_planner_wildcard_and_subset.2.2.2.1
      [("firstName", true), ("lastName", true), ("age", false)] (by decide)
    rw [h]
    rfl
  · exact projection_planner_wildcard_and_subset.2.2.1
      [("firstName", false), ("lastName", false)] (by decide)

/-! ## Claim C4 -/

/-- C4 counterexample: for a `where` clause whose field has an empty filter
object, the SQL-like assembler does NOT fail — it compiles to no filter at
all — while the key-value assembler does NOT silently skip the field — it
throws.  The claim has the two backends exactly swapped. -/
theorem empty_condition_swapped_cex :
    buildWhereClause (some [("age", [])]) = .ok "" ∧
    dynamoFilterExpression [("age", [])] =
      .error "Invalid condition for field \"age\". Expected a non-empty object." :=
  ⟨rfl, rfl⟩

/-- C4 amended: a field whose FilterCondition has zero operator entries is
SILENTLY SKIPPED by the SQL-like backend (the clause compiles to the empty
filter, no error), and likewise a field whose only key is the unrecognized
`mode`; on the key-value backend an empty condition object THROWS
`Invalid condition`, and a field whose first key is not a recognized operator
(such as `mode`) throws `Unsupported operator`. -/
theorem empty_condition_handling (field : String) (counter : Nat)
    (w : List (String × List (String × JsVal))) :
    buildWhereClause (some [(field, [])]) = .ok "" ∧
    buildWhereClause (some [(field, [("mode", JsVal.vStr "INSENSITIVE")])]) = .ok "" ∧
    dynamoBuildFilterAux counter ((field, []) :: w) =
      .error ("Invalid condition for field \"" ++ field ++ "\". Expected a non-empty object.") ∧
    dynamoBuildFilterAux counter ((field, [("mode", JsVal.vStr "INSENSITIVE")]) :: w) =
      .error "Unsupported operator: mode" :=
  ⟨rfl, rfl, rfl, rfl⟩

/-! ## Claim C3 -/

/-- C3 counterexample: on the SQL-like backend `endsWith` does NOT compile to
the contains/substring primitive — it compiles to a `LIKE` pattern — and in
the INSENSITIVE example the compiled clause contains no `CONTAINS` call at
all (so no contains-approximated suffix test), and the suffix literal is
wrapped inside a malformed quoted pattern rather than lower-cased. -/
theorem endsWith_not_contains_cex :
    createFilter "firstName" "endsWith" "SENSITIVE" (JsVal.vStr "lyn") =
      .ok "c.firstName LIKE \x27%lyn\x27" ∧
    mentions "CONTAINS" "c.firstName LIKE \x27%lyn\x27" = false ∧
    buildWhereClause (some [("firstName",
        [("startsWith", JsVal.vStr "Sa"), ("endsWith", JsVal.vStr "lyn"),
         ("mode", JsVal.vStr "INSENSITIVE")])]) =
      .ok ("WHERE STARTSWITH(LOWER(c.firstName), LOWER(\x27Sa\x27))" ++
        " AND LOWER(c.firstName) LIKE \x27%LOWER(\x27lyn\x27)\x27") ∧
    mentions "CONTAINS" ("WHERE STARTSWITH(LOWER(c.firstName), LOWER(\x27Sa\x27))" ++
        " AND LOWER(c.firstName) LIKE \x27%LOWER(\x27lyn\x27)\x27") = false := by
  refine ⟨rfl, by decide, rfl, by decide⟩

/-- C3 amended: `endsWith` is approximated by the `contains` primitive only on
the KEY-VALUE backend; on the SQL-like backend it compiles to a
`LIKE \x27%value\x27` pattern (a literal suffix pattern, not `CONTAINS`), and
with `mode = INSENSITIVE` to `LOWER(c.field) LIKE \x27%LOWER(\x27value\x27)\x27`,
which lower-cases the field reference but embeds the un-lowercased literal
inside a malformed pattern.  In the example, the compiled clause is a
case-insensitive STARTSWITH prefix test AND that LIKE fragment, joined by
`AND`. -/
theorem endsWith_compilation (field : String) (s : String) (counter : Nat) :
    dynamoCompileField counter field [("endsWith", JsVal.vStr s)] =
      .ok ("contains(" ++ ("#" ++ field) ++ ", " ++ (":val" ++ toString counter) ++ ")",
        ("#" ++ field, field), (":val" ++ toString counter, DynAttr.S s)) ∧
    createFilter field "endsWith" "SENSITIVE" (JsVal.vStr s) =
      .ok ("c." ++ field ++ " LIKE \x27%" ++ s ++ "\x27") ∧
    createFilter field "endsWith" "INSENSITIVE" (JsVal.vStr s) =
      .ok ("LOWER(c." ++ field ++ ") LIKE \x27%LOWER(\x27" ++ s ++ "\x27)\x27") ∧
    buildWhereClause (some [("firstName",
        [("startsWith", JsVal.vStr "Sa"), ("endsWith", JsVal.vStr "lyn"),
         ("mode", JsVal.vStr "INSENSITIVE")])]) =
      .ok ("WHERE STARTSWITH(LOWER(c.firstName), LOWER(\x27Sa\x27))" ++
        " AND LOWER(c.firstName) LIKE \x27%LOWER(\x27lyn\x27)\x27") :=
  ⟨rfl, rfl, rfl, rfl⟩

/-! ## Claim C6 -/

/-- C6 counterexample: the key-value backend does not render `in` lists at
all — compiling `where = \x7bage: \x7bin: [25, 30, 35]\x7d\x7d` there throws
`Unsupported value type` (array operands are rejected before operator
dispatch), so the claim fails on that backend. -/
theorem in_operator_keyValue_cex :
    dynamoFilterExpression
      [("age", [("in", JsVal.vArr [JsVal.vNum 25, JsVal.vNum 30, JsVal.vNum 35])])] =
      .error "Unsupported value type: object" ∧
    buildWhereClause
      (some [("age", [("in", JsVal.vArr [JsVal.vNum 25, JsVal.vNum 30, JsVal.vNum 35])])]) =
      .ok "WHERE c.age IN (25, 30, 35)" :=
  ⟨rfl, rfl⟩

/-- C6 amended: on the SQL-LIKE backend only, `in`/`notIn` compile to a
parenthesized, comma-joined literal list whose element quoting agrees with
the `equals` literal rule (numbers and booleans bare, strings quoted), and
`where = \x7bage: \x7bin: [25, 30, 35]\x7d\x7d` renders `c.age IN (25, 30, 35)`;
a non-array operand there is a runtime `TypeError`, not a typed
`MalformedFilter` error; on the key-value backend `in`/`notIn` are
unsupported (an array operand throws `Unsupported value type`). -/
theorem in_notIn_rendering (field : String) (mode : String) (xs : List JsVal)
    (v : JsVal) (s : String) (counter : Nat) :
    createFilter field "in" mode (JsVal.vArr xs) =
      .ok ("c." ++ field ++ " IN (" ++ String.intercalate ", " (xs.map renderListElem) ++ ")") ∧
    createFilter field "notIn" mode (JsVal.vArr xs) =
      .ok ("c." ++ field ++ " NOT IN (" ++ String.intercalate ", " (xs.map renderListElem) ++ ")") ∧
    createFilter field "equals" mode v = .ok ("c." ++ field ++ " = " ++ renderListElem v) ∧
    createFilter field "in" mode (JsVal.vStr s) =
      .error "TypeError: value.map is not a function" ∧
    dynamoCompileField counter field [("in", JsVal.vArr xs)] =
      .error "Unsupported value type: object" ∧
    buildWhereClause
      (some [("age", [("in", JsVal.vArr [JsVal.vNum 25, JsVal.vNum 30, JsVal.vNum 35])])]) =
      .ok "WHERE c.age IN (25, 30, 35)" := by
  refine ⟨rfl, rfl, ?_, rfl, rfl, rfl⟩
  cases v with
  | vStr s =>
    simp [createFilter, renderListElem, isBooleanV, isNumberV, String.append_assoc]
    rfl
  | vBool b => rfl
  | vNum n => rfl
  | vArr xs =>
    simp [createFilter, renderListElem, isBooleanV, isNumberV, String.append_assoc]
    rfl

/-! ## Claim C8 -/

/-- C8: the SQL-like `create` stamps nothing — for the payload
`\x7bfirstName: "Bob"\x7d` the persisted document body is the payload
unchanged, with no generated `id` and no `createdAt`/`updatedAt` fields, even
though the model documents AutoFields `\x7bid: true, timestamp: true\x7d`
as enabled by default. -/
theorem cosmos_create_no_autofields :
    cosmosCreateModel [("firstName", JsVal.vStr "Bob")] =
      .ok [("firstName", JsVal.vStr "Bob")] ∧
    getField [("firstName", JsVal.vStr "Bob")] "id" = none ∧
    getField [("firstName", JsVal.vStr "Bob")] "createdAt" = none ∧
    getField [("firstName", JsVal.vStr "Bob")] "updatedAt" = none :=
  ⟨rfl, rfl, rfl, rfl⟩

/-! ## Claim C1 -/

/-- C1 counterexample: at the claim example `\x7blte: 10, notIn: [1, 2, 3]\x7d`
the key-value assembler emits ONE fragment (only the first operator entry,
`lte`, is compiled; `notIn` is dropped), not the two AND-joined fragments the
claim requires on both backends. -/
theorem two_operator_condition_cex :
    Except.map (fun r => r.1.length)
      (dynamoBuildFilter
        [("age", [("lte", JsVal.vNum 10),
                  ("notIn", JsVal.vArr [JsVal.vNum 1, JsVal.vNum 2, JsVal.vNum 3])])]) =
      .ok 1 ∧
    dynamoFilterExpression
      [("age", [("lte", JsVal.vNum 10),
                ("notIn", JsVal.vArr [JsVal.vNum 1, JsVal.vNum 2, JsVal.vNum 3])])] =
      .ok "#age <= :val0" :=
  ⟨rfl, rfl⟩

/-- C1 amended: on the SQL-LIKE backend the assembler emits one fragment per
operator entry and AND-joins them — any two-entry FilterCondition whose
entries compile to non-empty fragments yields exactly those two fragments
joined by `AND` (and `mode` entries compile to the empty fragment, which is
dropped) — but on the KEY-VALUE backend only the FIRST operator entry of
each field is compiled: the assembler output is unchanged when every entry
after the first is removed, and `mode` is not treated as metadata there. -/
theorem and_join_per_operator (field k1 k2 : String) (v1 v2 : JsVal) (f1 f2 : String)
    (h1 : createFilter field k1 (modeOf [(k1, v1), (k2, v2)]) v1 = .ok f1)
    (h2 : createFilter field k2 (modeOf [(k1, v1), (k2, v2)]) v2 = .ok f2)
    (ne1 : f1.isEmpty = false) (ne2 : f2.isEmpty = false) :
    buildWhereClause (some [(field, [(k1, v1), (k2, v2)])]) =
      .ok ("WHERE " ++ (f1 ++ " AND " ++ f2)) ∧
    (∀ f m v, createFilter f "mode" m v = .ok "") ∧
    (∀ counter w fld e rest,
      dynamoBuildFilterAux counter ((fld, e :: rest) :: w) =
        dynamoBuildFilterAux counter ((fld, [e]) :: w)) := by
  refine ⟨?_, fun f m v => rfl, fun counter w fld e rest => rfl⟩
  have e1 : mapExcept (fun kv =>
      createFilter field kv.1 (modeOf [(k1, v1), (k2, v2)]) kv.2) [(k1, v1), (k2, v2)] =
      .ok [f1, f2] :=
    mapExcept_cons_ok _ _ _ _ _ h1 (mapExcept_cons_ok _ _ _ _ _ h2 rfl)
  have e2 : mapExcept (fun fieldFilters => mapExcept (fun kv =>
      createFilter fieldFilters.1 kv.1 (modeOf fieldFilters.2) kv.2) fieldFilters.2)
      [(field, [(k1, v1), (k2, v2)])] = .ok [[f1, f2]] :=
    mapExcept_cons_ok _ _ _ _ _ e1 rfl
  rw [buildWhereClause_ok [(field, [(k1, v1), (k2, v2)])] [[f1, f2]] rfl e2]
  simp [List.filter_cons, ne1, ne2]
  rfl

/-- C1 witness: the SQL-like assembler output at the two-operator example. -/
theorem and_join_per_operator_witness :
    buildWhereClause (some [("age", [("lte", JsVal.vNum 10),
        ("notIn", JsVal.vArr [JsVal.vNum 1, JsVal.vNum 2, JsVal.vNum 3])])]) =
      .ok "WHERE c.age <= 10 AND c.age NOT IN (1, 2, 3)" := by
  have h := (and_join_per_operator "age" "lte" "notIn" (JsVal.vNum 10)
    (JsVal.vArr [JsVal.vNum 1, JsVal.vNum 2, JsVal.vNum 3])
    "c.age <= 10" "c.age NOT IN (1, 2, 3)" rfl rfl rfl rfl).1
  rw [h]
  rfl

/-! ## Claim C5 -/

/-- C5 counterexample: `take = 0` is rejected by the SQL-like backend but
ACCEPTED by the key-value backend (the guard `if (take && ...)` skips
validation for falsy values), where it becomes the scan `Limit` — so the
claim fails on the key-value backend. -/
theorem take_zero_not_rejected_cex :
    dynamoValidateTake (some 0) = .ok () ∧
    dynamoLimit (some 0) = 0 ∧
    cosmosValidateTake (some 0) =
      .error "Please make sure \"take\" is a positive integer. You provided 0 " :=
  ⟨rfl, rfl, rfl⟩

/-- C5 amended: on the SQL-like backend every `take` below 1 (including 0 and
-1) is rejected before any query; on the key-value backend a NEGATIVE `take`
is rejected but `take = 0` passes validation and is used as the page limit;
when `take` is absent the page size defaults to 100 on both backends. -/
theorem take_validation (t : Int) :
    (t < 1 → cosmosValidateTake (some t) =
      .error ("Please make sure \"take\" is a positive integer. You provided " ++
        toString t ++ " ")) ∧
    (1 ≤ t → cosmosValidateTake (some t) = .ok ()) ∧
    cosmosValidateTake none = .ok () ∧
    cosmosMaxItemCount none = 100 ∧
    (t < 0 → dynamoValidateTake (some t) =
      .error ("Please make sure \"take\" is a positive integer. You provided " ++ toString t)) ∧
    (1 ≤ t → dynamoValidateTake (some t) = .ok ()) ∧
    dynamoValidateTake (some 0) = .ok () ∧
    dynamoLimit (some 0) = 0 ∧
    dynamoValidateTake none = .ok () ∧
    dynamoLimit none = 100 := by
  refine ⟨?_, ?_, rfl, rfl, ?_, ?_, rfl, rfl, rfl, rfl⟩
  · intro h
    simp only [cosmosValidateTake]
    rw [if_pos h]
  · intro h
    simp only [cosmosValidateTake]
    rw [if_neg (by omega)]
  · intro h
    simp only [dynamoValidateTake]
    rw [if_pos (by omega)]
  · intro h
    simp only [dynamoValidateTake]
    rw [if_neg (by omega)]

/-- C5 witness: the validators evaluated at -1, 0 and 10. -/
theorem take_validation_witness :
    cosmosValidateTake (some (-1)) =
      .error "Please make sure \"take\" is a positive integer. You provided -1 " ∧
    dynamoValidateTake (some (-1)) =
      .error "Please make sure \"take\" is a positive integer. You provided -1" ∧
    cosmosValidateTake (some 10) = .ok () := by
  refine ⟨?_, ?_, ?_⟩
  · have h := (take_validation (-1)).1 (by decide)
    rw [h]
    rfl
  · have h := (take_validation (-1)).2.2.2.2.1 (by decide)
    rw [h]
    rfl
  · exact (take_validation 10).2.1 (by decide)

/-! ## Claim C2 -/

/-- A positive `recordHasId` check pins the stored id field. -/
theorem recordHasId_getField (r : Record) (id : String) (h : recordHasId r id = true) :
    getField r "id" = some (JsVal.vStr id) := by
  unfold recordHasId at h
  cases hg : getField r "id" with
  | none => rw [hg] at h; exact Bool.noConfusion h
  | some v =>
    rw [hg] at h
    cases v with
    | vStr s =>
      have hs : s = id := eq_of_beq h
      rw [hs]
    | vBool b => exact Bool.noConfusion h
    | vNum n => exact Bool.noConfusion h
    | vArr xs => exact Bool.noConfusion h

/-- C2 counterexample: updating `\x7bfirstName: "Sam"\x7d` on a stored record
that also carries `lastName` REPLACES the whole record by the id projection
merged with the payload; the stored `lastName` is dropped from the persisted
result, not preserved. -/
theorem update_drops_unmentioned_fields_cex :
    cosmosUpdateModel "u1" [("firstName", JsVal.vStr "Sam")]
      [[("id", JsVal.vStr "u1"), ("firstName", JsVal.vStr "Bob"),
        ("lastName", JsVal.vStr "Smith")]] =
      .ok ([("id", JsVal.vStr "u1"), ("firstName", JsVal.vStr "Sam")],
        [[("id", JsVal.vStr "u1"), ("firstName", JsVal.vStr "Sam")]]) ∧
    getField [("id", JsVal.vStr "u1"), ("firstName", JsVal.vStr "Sam")] "lastName" = none :=
  ⟨rfl, rfl⟩

/-- C2 amended: SQL-like `update` validates the id and payload, fails with the
not-found error when no record carries the id, and otherwise fetches only the
`\x7bid: true\x7d` PROJECTION of the existing record, merges the payload over
that projection, and replaces the whole stored record with the result — so
the persisted record is exactly `\x7bid\x7d` merged with the payload, and
stored fields absent from the payload are dropped rather than preserved. -/
theorem sqlLike_update_merges_over_id_projection (id : String) (data : Record)
    (store : List Record)
    (hid : validId id = true) (hd : data.isEmpty = false) :
    (store.find? (fun r => recordHasId r id) = none →
      cosmosUpdateModel id data store =
        .error "Failed to update item in db. The item you\x27re trying to update cannot be found.") ∧
    (∀ r, store.find? (fun r => recordHasId r id) = some r →
      cosmosUpdateModel id data store =
        .ok (("id", JsVal.vStr id) :: data,
          store.map (fun q => if recordHasId q id then ("id", JsVal.vStr id) :: data else q))) := by
  constructor
  · intro hnone
    simp [cosmosUpdateModel, cosmosFindOneModel, hid, hd, hnone]
  · intro r hsome
    have hr := List.find?_some hsome
    have hgf := recordHasId_getField r id hr
    have hproj : projectRecord (some [("id", true)]) r = [("id", JsVal.vStr id)] := by
      show (["id"].filterMap (fun f => (getField r f).map (fun v => (f, v)))) = _
      simp [List.filterMap_cons, hgf]
    simp [cosmosUpdateModel, cosmosFindOneModel, hid, hd, hsome, hproj]

/-- C2 witness: the amended statement at a concrete store. -/
theorem sqlLike_update_witness :
    cosmosUpdateModel "a1" [("score", JsVal.vNum 7)]
      [[("id", JsVal.vStr "a1"), ("score", JsVal.vNum 3), ("note", JsVal.vStr "keep")]] =
      .ok ([("id", JsVal.vStr "a1"), ("score", JsVal.vNum 7)],
        [[("id", JsVal.vStr "a1"), ("score", JsVal.vNum 7)]]) := by
  have h := (sqlLike_update_merges_over_id_projection "a1" [("score", JsVal.vNum 7)]
      [[("id", JsVal.vStr "a1"), ("score", JsVal.vNum 3), ("note", JsVal.vStr "keep")]]
      (by decide) rfl).2
      [("id", JsVal.vStr "a1"), ("score", JsVal.vNum 3), ("note", JsVal.vStr "keep")] rfl
  rw [h]
  rfl

/-! ## Claim C10 -/

/-- The timestamp entries never carry a key-field name. -/
theorem getField_ts_none (k : String) (ts : Bool) (now nowAgain : String)
    (h1 : "createdAt" ≠ k) (h2 : "updatedAt" ≠ k) :
    getField
      (if ts then [("createdAt", JsVal.vStr now), ("updatedAt", JsVal.vStr nowAgain)] else [])
      k = none := by
  cases ts
  · rfl
  · simp [getField, h1, h2]

/-- C10: on the key-value backend, with a sort key configured and a payload
lacking an id, `create` draws TWO UUIDs from the generator — the partition-key
field receives the first and the sort-key field receives the second — so
whenever the two generated UUIDs differ the two key fields of the persisted
item differ. -/
theorem dynamo_create_two_uuids (pkName skName : String) (data : Record)
    (u0 u1 : String) (uuidRest : List String) (now nowAgain : String) (ts : Bool)
    (hid : getField data "id" = none)
    (hpk : getField data pkName = none) (hsk : getField data skName = none)
    (hne : skName ≠ pkName)
    (hpk1 : "createdAt" ≠ pkName) (hpk2 : "updatedAt" ≠ pkName)
    (hsk1 : "createdAt" ≠ skName) (hsk2 : "updatedAt" ≠ skName)
    (hu : u0 ≠ u1) :
    getField (dynamoCreateItem pkName (some skName) ts data (u0 :: u1 :: uuidRest) now nowAgain)
      pkName = some (JsVal.vStr u0) ∧
    getField (dynamoCreateItem pkName (some skName) ts data (u0 :: u1 :: uuidRest) now nowAgain)
      skName = some (JsVal.vStr u1) ∧
    getField (dynamoCreateItem pkName (some skName) ts data (u0 :: u1 :: uuidRest) now nowAgain)
      pkName ≠
      getField (dynamoCreateItem pkName (some skName) ts data (u0 :: u1 :: uuidRest) now nowAgain)
      skName := by
  have hitem : dynamoCreateItem pkName (some skName) ts data (u0 :: u1 :: uuidRest) now nowAgain =
      ([(pkName, JsVal.vStr u0), (skName, JsVal.vStr u1)] ++ data) ++
        (if ts then [("createdAt", JsVal.vStr now), ("updatedAt", JsVal.vStr nowAgain)] else []) := by
    simp [dynamoCreateItem, jsIdOrUuid, hid]
  have hp : getField
      (dynamoCreateItem pkName (some skName) ts data (u0 :: u1 :: uuidRest) now nowAgain)
      pkName = some (JsVal.vStr u0) := by
    rw [hitem, getField_append, getField_ts_none pkName ts now nowAgain hpk1 hpk2,
      getField_append, hpk]
    simp [getField, hne]
  have hq : getField
      (dynamoCreateItem pkName (some skName) ts data (u0 :: u1 :: uuidRest) now nowAgain)
      skName = some (JsVal.vStr u1) := by
    rw [hitem, getField_append, getField_ts_none skName ts now nowAgain hsk1 hsk2,
      getField_append, hsk]
    simp [getField]
  refine ⟨hp, hq, ?_⟩
  rw [hp, hq]
  simp [hu]

/-- C10 witness: a concrete create with a UUID supply of two distinct values. -/
theorem dynamo_create_two_uuids_witness :
    getField (dynamoCreateItem "userId" (some "sortId") true [("firstName", JsVal.vStr "Bob")]
      ["uuid-one", "uuid-two"] "2024-05-01T00:00:00.000Z" "2024-05-01T00:00:00.000Z")
      "userId" = some (JsVal.vStr "uuid-one") ∧
    getField (dynamoCreateItem "userId" (some "sortId") true [("firstName", JsVal.vStr "Bob")]
      ["uuid-one", "uuid-two"] "2024-05-01T00:00:00.000Z" "2024-05-01T00:00:00.000Z")
      "sortId" = some (JsVal.vStr "uuid-two") ∧
    getField (dynamoCreateItem "userId" (some "sortId") true [("firstName", JsVal.vStr "Bob")]
      ["uuid-one", "uuid-two"] "2024-05-01T00:00:00.000Z" "2024-05-01T00:00:00.000Z")
      "userId" ≠
      getField (dynamoCreateItem "userId" (some "sortId") true [("firstName", JsVal.vStr "Bob")]
      ["uuid-one", "uuid-two"] "2024-05-01T00:00:00.000Z" "2024-05-01T00:00:00.000Z")
      "sortId" :=
  dynamo_create_two_uuids "userId" "sortId" [("firstName", JsVal.vStr "Bob")]
    "uuid-one" "uuid-two" [] "2024-05-01T00:00:00.000Z" "2024-05-01T00:00:00.000Z" true
    rfl rfl rfl (by decide) (by decide) (by decide) (by decide) (by decide) (by decide)

/-! ## Claim C7 -/

theorem skipWs_cons (c : Char) (l : List Char) (h : isJsonWs c = false) :
    skipWs (c :: l) = c :: l := by
  show (if isJsonWs c then skipWs l else c :: l) = c :: l
  rw [h]
  simp

theorem takeStr_append (cs rest : List Char) (h : ∀ c ∈ cs, charOkForJson c = true) :
    takeStr (cs ++ '"' :: rest) = some (cs, rest) := by
  induction cs with
  | nil => simp [takeStr]
  | cons c cs ih =>
    have hc := h c (List.mem_cons_self c cs)
    rw [charOkForJson, Bool.and_eq_true] at hc
    rw [List.cons_append]
    show (if c = '"' then some ([], cs ++ '"' :: rest)
      else if c = '\\' then none
      else (takeStr (cs ++ '"' :: rest)).map (fun p => (c :: p.1, p.2))) = _
    rw [if_neg (of_decide_eq_true hc.1), if_neg (of_decide_eq_true hc.2),
      ih (fun x hx => h x (List.mem_cons_of_mem c hx))]
    rfl

theorem parseStringLit_print (s : String) (rest : List Char) (h : strOkForJson s = true) :
    parseStringLit ('"' :: (s.data ++ '"' :: rest)) = some (s, rest) := by
  show (takeStr (s.data ++ '"' :: rest)).map (fun p => (String.mk p.1, p.2)) = _
  rw [takeStr_append s.data rest (List.all_eq_true.mp h)]
  rfl

theorem parseAttr_print (a : DynAttr) (rest : List Char) (h : attrOk a = true) :
    parseAttr (printAttrChars a ++ rest) = some (a, rest) := by
  cases a with
  | S s =>
    have hall : strOkForJson s = true := h
    have e : printAttrChars (DynAttr.S s) ++ rest =
        '\x7b' :: '"' :: 'S' :: '"' :: ':' :: '"' :: (s.data ++ ('"' :: '\x7d' :: rest)) := by
      simp [printAttrChars]
    rw [e]
    have hkey : parseStringLit ('"' :: 'S' :: '"' :: (':' :: '"' :: (s.data ++ ('"' :: '\x7d' :: rest)))) =
        some ("S", ':' :: '"' :: (s.data ++ ('"' :: '\x7d' :: rest))) :=
      parseStringLit_print "S" (':' :: '"' :: (s.data ++ ('"' :: '\x7d' :: rest))) (by decide)
    have hval : parseStringLit ('"' :: (s.data ++ ('"' :: ('\x7d' :: rest)))) =
        some (s, '\x7d' :: rest) :=
      parseStringLit_print s ('\x7d' :: rest) hall
    simp [parseAttr, skipWs_cons, isJsonWs, hkey, parseAttrBody, hval, expectChar]
  | N s =>
    have hall : strOkForJson s = true := h
    have e : printAttrChars (DynAttr.N s) ++ rest =
        '\x7b' :: '"' :: 'N' :: '"' :: ':' :: '"' :: (s.data ++ ('"' :: '\x7d' :: rest)) := by
      simp [printAttrChars]
    rw [e]
    have hkey : parseStringLit ('"' :: 'N' :: '"' :: (':' :: '"' :: (s.data ++ ('"' :: '\x7d' :: rest)))) =
        some ("N", ':' :: '"' :: (s.data ++ ('"' :: '\x7d' :: rest))) :=
      parseStringLit_print "N" (':' :: '"' :: (s.data ++ ('"' :: '\x7d' :: rest))) (by decide)
    have hval : parseStringLit ('"' :: (s.data ++ ('"' :: ('\x7d' :: rest)))) =
        some (s, '\x7d' :: rest) :=
      parseStringLit_print s ('\x7d' :: rest) hall
    simp [parseAttr, skipWs_cons, isJsonWs, hkey, parseAttrBody, hval, expectChar]
  | BOOL b =>
    cases b <;> simp [printAttrChars, parseAttr, skipWs, isJsonWs, parseStringLit, takeStr,
      parseAttrBody, parseExact, expectChar]

theorem expectChar_cons_self (c : Char) (l : List Char) : expectChar c (c :: l) = some l := by
  show (if c = c then some l else none) = some l
  rw [if_pos rfl]

theorem printEntriesChars_length_ge (t : NativeToken) :
    t.length ≤ (printEntriesChars t).length := by
  induction t with
  | nil => simp [printEntriesChars]
  | cons e es ih =>
    cases es with
    | nil => simp [printEntriesChars, printEntryChars]
    | cons e2 es2 =>
      simp only [printEntriesChars, List.length_append, List.length_cons] at ih ⊢
      omega

theorem parseEntriesAux_print (t : NativeToken) (fuel : Nat) (rest : List Char)
    (ht : tokenOk t = true) (hne : t ≠ []) (hfuel : t.length ≤ fuel) :
    parseEntriesAux fuel (printEntriesChars t ++ ('\x7d' :: rest)) =
      some (t, '\x7d' :: rest) := by
  induction t generalizing fuel rest with
  | nil => exact absurd rfl hne
  | cons e es ih =>
    obtain ⟨k, a⟩ := e
    cases fuel with
    | zero => simp at hfuel
    | succ fuel =>
      rw [tokenOk, List.all_cons, Bool.and_eq_true, Bool.and_eq_true] at ht
      have hkok : strOkForJson k = true := ht.1.1
      have haok : attrOk a = true := ht.1.2
      have hok2 : tokenOk es = true := ht.2
      cases es with
      | nil =>
        have e1 : printEntriesChars [(k, a)] ++ ('\x7d' :: rest) =
            '"' :: (k.data ++ ('"' :: (':' :: (printAttrChars a ++ ('\x7d' :: rest))))) := by
          simp [printEntriesChars, printEntryChars]
        rw [e1]
        have hkey := parseStringLit_print k (':' :: (printAttrChars a ++ ('\x7d' :: rest))) hkok
        have hattr := parseAttr_print a ('\x7d' :: rest) haok
        simp only [parseEntriesAux]
        rw [skipWs_cons '"' _ rfl, hkey]
        simp only [Option.some_bind]
        rw [skipWs_cons ':' _ rfl, expectChar_cons_self]
        simp only [Option.some_bind]
        rw [hattr]
        simp only [Option.some_bind]
        rw [skipWs_cons '\x7d' _ rfl]
        rfl
      | cons e2 es2 =>
        have e1 : printEntriesChars ((k, a) :: e2 :: es2) ++ ('\x7d' :: rest) =
            '"' :: (k.data ++ ('"' :: (':' :: (printAttrChars a ++
              (',' :: (printEntriesChars (e2 :: es2) ++ ('\x7d' :: rest))))))) := by
          simp [printEntriesChars, printEntryChars]
        rw [e1]
        have hkey := parseStringLit_print k
          (':' :: (printAttrChars a ++ (',' :: (printEntriesChars (e2 :: es2) ++ ('\x7d' :: rest))))) hkok
        have hattr := parseAttr_print a
          (',' :: (printEntriesChars (e2 :: es2) ++ ('\x7d' :: rest))) haok
        have hrec := ih fuel rest hok2 (by simp)
          (by simp only [List.length_cons] at hfuel ⊢; omega)
        simp only [parseEntriesAux]
        rw [skipWs_cons '"' _ rfl, hkey]
        simp only [Option.some_bind]
        rw [skipWs_cons ':' _ rfl, expectChar_cons_self]
        simp only [Option.some_bind]
        rw [hattr]
        simp only [Option.some_bind]
        rw [skipWs_cons ',' _ rfl]
        show Option.map (fun el => ((k, a) :: el.1, el.2))
          (parseEntriesAux fuel (printEntriesChars (e2 :: es2) ++ '\x7d' :: rest)) =
          some ((k, a) :: e2 :: es2, '\x7d' :: rest)
        rw [hrec]
        rfl

theorem decode_encode (t : NativeToken) (ht : tokenOk t = true) :
    decodeCursor (encodeToken t) = some t := by
  cases t with
  | nil => rfl
  | cons e es =>
    obtain ⟨k, a⟩ := e
    obtain ⟨TL, hTL⟩ : ∃ TL, printEntriesChars ((k, a) :: es) = '"' :: TL := by
      cases es
      · exact ⟨_, rfl⟩
      · exact ⟨_, rfl⟩
    have hskip : skipWs (printEntriesChars ((k, a) :: es) ++ ['\x7d']) =
        printEntriesChars ((k, a) :: es) ++ ['\x7d'] := by
      rw [hTL, List.cons_append, skipWs_cons '"' _ rfl]
    have hnb : expectChar '\x7d' (skipWs (printEntriesChars ((k, a) :: es) ++ ['\x7d'])) = none := by
      rw [hskip, hTL, List.cons_append]
      show (if '"' = '\x7d' then some (TL ++ ['\x7d']) else none) = none
      rw [if_neg (by decide)]
    have hfe : parseEntriesAux
        ((skipWs (printEntriesChars ((k, a) :: es) ++ ['\x7d'])).length + 1)
        (skipWs (printEntriesChars ((k, a) :: es) ++ ['\x7d'])) =
        some ((k, a) :: es, ['\x7d']) := by
      rw [hskip]
      exact parseEntriesAux_print ((k, a) :: es) _ [] ht (by simp)
        (by have h9 := printEntriesChars_length_ge ((k, a) :: es)
            simp only [List.length_append, List.length_cons, List.length_nil] at h9 ⊢
            omega)
    have hcore : parseTokenCore (encodeToken ((k, a) :: es)).data = some ((k, a) :: es, []) := by
      show parseTokenCore ('\x7b' :: (printEntriesChars ((k, a) :: es) ++ ['\x7d'])) = _
      simp only [parseTokenCore]
      rw [skipWs_cons '\x7b' _ rfl, expectChar_cons_self]
      simp only [Option.some_bind]
      rw [hnb]
      show (parseEntriesAux ((skipWs (printEntriesChars ((k, a) :: es) ++ ['\x7d'])).length + 1)
          (skipWs (printEntriesChars ((k, a) :: es) ++ ['\x7d']))).bind (fun el =>
          Option.map (fun l4 => (el.1, l4)) (expectChar '\x7d' (skipWs el.2))) = _
      rw [hfe]
      simp only [Option.some_bind]
      rw [skipWs_cons '\x7d' _ rfl, expectChar_cons_self]
      rfl
    simp only [decodeCursor, hcore]
    rfl

/-- C7 counterexample: `encode(decode(x)) == x` FAILS for the syntactically
valid cursor string `\x7b"id":\x7b"S":"a"\x7d \x7d` (note the interior
whitespace, which `JSON.parse` accepts): decoding succeeds but re-encoding
returns the whitespace-normalized string, not `x` itself. -/
theorem cursor_encode_decode_not_identity_cex :
    decodeCursor "\x7b\"id\":\x7b\"S\":\"a\"\x7d \x7d" = some [("id", DynAttr.S "a")] ∧
    (decodeCursor "\x7b\"id\":\x7b\"S\":\"a\"\x7d \x7d").map encodeToken =
      some "\x7b\"id\":\x7b\"S\":\"a\"\x7d\x7d" ∧
    ("\x7b\"id\":\x7b\"S\":\"a\"\x7d\x7d" : String) ≠ "\x7b\"id\":\x7b\"S\":\"a\"\x7d \x7d" :=
  ⟨rfl, rfl, by decide⟩

/-- C7 amended: `decode(encode(nativeToken))` yields the native token
unchanged for every token (with escape-free strings), and an absent native
token encodes to `undefined`; but `encode(decode(x)) == x` holds only for
CANONICAL (stringify-image) cursor strings, not for every syntactically valid
cursor string — `JSON.parse` then `JSON.stringify` normalizes whitespace. -/
theorem cursor_codec_roundtrip :
    (∀ t : NativeToken, tokenOk t = true → decodeCursor (encodeToken t) = some t) ∧
    encodeCursor none = none ∧
    (∀ t : NativeToken, tokenOk t = true →
      (decodeCursor (encodeToken t)).map encodeToken = some (encodeToken t)) := by
  refine ⟨decode_encode, rfl, fun t ht => ?_⟩
  rw [decode_encode t ht]
  rfl

/-- C7 witness: the round trip at a concrete token. -/
theorem cursor_codec_roundtrip_witness :
    decodeCursor (encodeToken [("id", DynAttr.S "abc")]) = some [("id", DynAttr.S "abc")] ∧
    (decodeCursor (encodeToken [("id", DynAttr.S "abc")])).map encodeToken =
      some (encodeToken [("id", DynAttr.S "abc")]) :=
  ⟨cursor_codec_roundtrip.1 [("id", DynAttr.S "abc")] (by decide),
   cursor_codec_roundtrip.2.2 [("id", DynAttr.S "abc")] (by decide)⟩
